import Mathlib

/-!
Verification development for the FarmXpert SuperAgent orchestrator
(`farmxpert/core/super_agent.py`, `farmxpert/core/super_agent_nl_formatter.py`,
`farmxpert/services/gemini_service.py`).

The embedding models Python dictionaries / JSON payloads as a `JValue` tree,
Python truthiness as `truthy`, and each orchestrator method as a Lean
function with the same name (snake_case turned into lowerCamelCase).
External collaborators (the Gemini text-generation client, `json.loads`,
the per-agent `handle` coroutines, wall-clock timing) are passed in as
explicit oracle parameters; everything the repository itself computes is
translated directly from the source.
-/

namespace FarmXpert

/-- A JSON-like value: the shape of the `Dict[str, Any]` payloads that flow
through the orchestrator.  Numbers are rationals (Python ints/floats are
only ever tested for truthiness by the code under study). -/
inductive JValue where
  | null : JValue
  | bool : Bool → JValue
  | num : Rat → JValue
  | str : String → JValue
  | arr : List JValue → JValue
  | obj : List (String × JValue) → JValue

/-- Python truthiness (`bool(x)`) on a `JValue`: `None`, `False`, `0`, `""`,
`[]` and `{}` are falsy, everything else truthy. -/
def truthy : JValue → Bool
  | .null => false
  | .bool b => b
  | .num q => if q = 0 then false else true
  | .str s => s ≠ ""
  | .arr xs => !xs.isEmpty
  | .obj fs => !fs.isEmpty

/-- Truthiness of `d.get(k)`: `None` (absent key) is falsy. -/
def truthyOpt : Option JValue → Bool
  | none => false
  | some v => truthy v

/-- Python `d.get(k)` on a dict modelled as an association list (keys are
unique in a Python dict; lookup returns the first match). -/
def dictGet (fields : List (String × JValue)) (k : String) : Option JValue :=
  (fields.find? (fun p => p.1 = k)).map (fun p => p.2)

/-- Rendering of a rational for `str()` / `json.dumps`.  Python renders
ints and floats with digits, signs and dots only; the exact digits are not
load-bearing anywhere in the orchestrator — the code only compares the
rendered strategy string against lowercase alphabetic keys, which no
numeric rendering can equal. -/
def pyStrNum (q : Rat) : String :=
  if q.den = 1 then toString q.num else toString q.num ++ "/" ++ toString q.den

mutual

/-- Abstraction of Python `json.dumps` (used by `add_list` to serialise a
dict item for display).  Only the fact that it returns some string matters
to the orchestrator; the rendering here is a plain JSON printer. -/
def jsonDumps : JValue → String
  | .null => "null"
  | .bool true => "true"
  | .bool false => "false"
  | .num q => pyStrNum q
  | .str s => "\"" ++ s ++ "\""
  | .arr xs => "[" ++ jsonDumpsList xs ++ "]"
  | .obj fs => "\x7b" ++ jsonDumpsFields fs ++ "\x7d"

def jsonDumpsList : List JValue → String
  | [] => ""
  | [v] => jsonDumps v
  | v :: vs => jsonDumps v ++ ", " ++ jsonDumpsList vs

def jsonDumpsFields : List (String × JValue) → String
  | [] => ""
  | [(k, v)] => "\"" ++ k ++ "\": " ++ jsonDumps v
  | (k, v) :: fs => "\"" ++ k ++ "\": " ++ jsonDumps v ++ ", " ++ jsonDumpsFields fs

end

/-- Abstraction of Python `str()`.  It is the identity on strings (the only
property the selection code relies on); container/number renderings are
bracketed or numeric and can never equal a bare strategy keyword. -/
def pyStr : JValue → String
  | .null => "None"
  | .bool true => "True"
  | .bool false => "False"
  | .num q => pyStrNum q
  | .str s => s
  | .arr xs => "[" ++ jsonDumpsList xs ++ "]"
  | .obj fs => "\x7b" ++ jsonDumpsFields fs ++ "\x7d"

/-- The whitespace set of Python `str.strip()` (ASCII portion; the
orchestrator only ever strips ASCII payloads). -/
def pyIsSpace (c : Char) : Bool :=
  c = ' ' || c = '\t' || c = '\n' || c = '\r' || c = '\x0b' || c = '\x0c'

/-- Python `s.strip()`: drop whitespace from both ends. -/
def pyTrim (s : String) : String :=
  String.mk (((s.toList.dropWhile pyIsSpace).reverse.dropWhile pyIsSpace).reverse)

/-- Python `s.lower()` (ASCII case mapping, which covers every curated
keyword, strategy key and greeting phrase in the source). -/
def pyLower (s : String) : String :=
  String.mk (s.toList.map Char.toLower)

/-- Metadata of one catalog entry of `SuperAgent._get_available_agents`. -/
structure AgentInfo where
  name : String
  description : String
  category : String
  tools : List String

/-- `SuperAgent._get_available_agents`: the static agent catalog, in its
insertion order. -/
def availableAgents : List (String × AgentInfo) := [
  ("crop_selector", ⟨"Crop Selector Agent",
    "Helps select the best crops based on soil, weather, and market conditions",
    "crop_planning", ["soil", "weather", "market", "crop", "web_scraping", "climate_prediction", "market_analysis"]⟩),
  ("seed_selection", ⟨"Seed Selection Agent",
    "Recommends the best seeds and varieties for selected crops",
    "crop_planning", ["market", "genetic_database", "soil_suitability", "yield_prediction"]⟩),
  ("soil_health", ⟨"Soil Health Agent",
    "Analyzes soil conditions and provides health recommendations",
    "crop_planning", ["soil", "crop", "soil_sensor", "amendment_recommendation", "lab_test_analyzer"]⟩),
  ("fertilizer_advisor", ⟨"Fertilizer Advisor Agent",
    "Provides fertilizer recommendations based on soil analysis",
    "crop_planning", ["soil", "fertilizer", "crop", "fertilizer_database", "weather_forecast", "plant_growth_simulation"]⟩),
  ("irrigation_planner", ⟨"Irrigation Planner Agent",
    "Plans irrigation schedules based on weather and crop needs",
    "crop_planning", ["weather", "irrigation", "crop", "evapotranspiration_model", "iot_soil_moisture", "weather_api"]⟩),
  ("pest_disease_diagnostic", ⟨"Pest & Disease Diagnostic Agent",
    "Diagnoses pest and disease issues and provides treatment plans",
    "crop_planning", ["pest_disease", "crop", "image_recognition", "voice_to_text", "disease_prediction"]⟩),
  ("weather_watcher", ⟨"Weather Watcher Agent",
    "Monitors weather conditions and provides forecasts",
    "crop_planning", ["weather", "crop", "weather_monitoring", "alert_system"]⟩),
  ("growth_stage_monitor", ⟨"Growth Stage Monitor Agent",
    "Tracks crop growth stages and provides care recommendations",
    "crop_planning", ["crop", "satellite_image_processing", "drone_image_processing", "growth_stage_prediction"]⟩),
  ("task_scheduler", ⟨"Task Scheduler Agent",
    "Schedules farm tasks and operations efficiently",
    "farm_operations", ["task_prioritization", "real_time_tracking", "weather_api"]⟩),
  ("machinery_equipment", ⟨"Machinery & Equipment Agent",
    "Manages machinery and equipment recommendations",
    "farm_operations", ["maintenance_tracker", "predictive_maintenance"]⟩),
  ("farm_layout_mapping", ⟨"Farm Layout Mapping Agent",
    "Helps design and optimize farm layout",
    "farm_operations", ["field_mapping"]⟩),
  ("yield_predictor", ⟨"Yield Predictor Agent",
    "Predicts crop yields based on various factors",
    "analytics", ["yield_model", "weather", "crop", "soil"]⟩),
  ("profit_optimization", ⟨"Profit Optimization Agent",
    "Optimizes farm profitability through various strategies",
    "analytics", ["profit_optimization", "market", "crop"]⟩),
  ("carbon_sustainability", ⟨"Carbon Sustainability Agent",
    "Helps with carbon footprint and sustainability practices",
    "analytics", ["carbon_sustainability"]⟩),
  ("market_intelligence", ⟨"Market Intelligence Agent",
    "Provides market insights and price trends",
    "supply_chain", ["market", "crop", "market_intelligence"]⟩),
  ("logistics_storage", ⟨"Logistics & Storage Agent",
    "Manages logistics and storage recommendations",
    "supply_chain", ["logistics", "market", "weather"]⟩),
  ("input_procurement", ⟨"Input Procurement Agent",
    "Helps with procurement of farm inputs",
    "supply_chain", ["procurement", "market"]⟩),
  ("crop_insurance_risk", ⟨"Crop Insurance & Risk Agent",
    "Provides risk assessment and insurance recommendations",
    "supply_chain", ["insurance_risk", "weather", "market"]⟩),
  ("farmer_coach", ⟨"Farmer Coach Agent",
    "Provides coaching and educational support to farmers",
    "support", ["farmer_coach"]⟩),
  ("compliance_certification", ⟨"Compliance & Certification Agent",
    "Helps with regulatory compliance and certifications",
    "support", ["compliance_cert"]⟩),
  ("community_engagement", ⟨"Community Engagement Agent",
    "Facilitates community engagement and knowledge sharing",
    "support", ["community"]⟩)]

/-- The identifiers present in the catalog (`item in self.available_agents`
tests dict-key membership). -/
def catalogKeys : List String := availableAgents.map (fun p => p.1)

/-- The loop body of `SuperAgent._safe_list`, with the accumulated `out`
list made explicit (`seen` in the source always holds exactly the elements
of `out`, so membership in `out` stands in for it).  The
`isinstance(item, str)` guard is vacuous here because items are typed as
strings. -/
def safeListAux (maxItems : Nat) : List String → List String → List String
  | [], out => out
  | item :: rest, out =>
    if item = "" then safeListAux maxItems rest out
    else if out.contains item then safeListAux maxItems rest out
    else if !(catalogKeys.contains item) then safeListAux maxItems rest out
    else if maxItems ≤ out.length + 1 then out ++ [item]
    else safeListAux maxItems rest (out ++ [item])

/-- `SuperAgent._safe_list(items, max_items=5)`: keep only non-empty,
not-yet-seen identifiers that exist in the catalog, stopping once
`max_items` have been kept. -/
def safeList (items : List String) (maxItems : Nat := 5) : List String :=
  safeListAux maxItems items []

/-- `SuperAgent._get_strategy_from_context`: read `context["strategy"]`,
fall back to `context["routing"]["strategy"]` when the former is falsy and
`routing` is a dict, and normalise via `str(...).strip().lower()`. -/
def getStrategyFromContext (context : Option JValue) : Option String :=
  match context with
  | some (JValue.obj fields) =>
    if fields.isEmpty then none
    else
      let strategy0 := dictGet fields "strategy"
      let strategy :=
        if !truthyOpt strategy0 then
          match dictGet fields "routing" with
          | some (JValue.obj rf) => dictGet rf "strategy"
          | _ => strategy0
        else strategy0
      match strategy with
      | some v => if truthy v then some (pyLower (pyTrim (pyStr v))) else none
      | none => none
  | _ => none

/-- The fixed agent list the source maps the `"comprehensive"` strategies
to (six identifiers, before `_safe_list` is applied). -/
def comprehensiveAgents : List String :=
  ["weather_watcher", "soil_health", "irrigation_planner", "fertilizer_advisor",
   "market_intelligence", "task_scheduler"]

/-- The `mapping` dict literal of `SuperAgent._select_agents_by_strategy`;
`mapping.get(s)` is `none` both for an unknown key and for the explicit
`"auto": None` entry. -/
def strategyMapping : String → Option (List String)
  | "weather" => some ["weather_watcher"]
  | "weather_only" => some ["weather_watcher"]
  | "growth" => some ["growth_stage_monitor"]
  | "growth_only" => some ["growth_stage_monitor"]
  | "irrigation" => some ["irrigation_planner"]
  | "irrigation_only" => some ["irrigation_planner"]
  | "fertilizer" => some ["fertilizer_advisor"]
  | "fertilizer_only" => some ["fertilizer_advisor"]
  | "soil" => some ["soil_health"]
  | "soil_health" => some ["soil_health"]
  | "soil_health_only" => some ["soil_health"]
  | "market" => some ["market_intelligence"]
  | "market_only" => some ["market_intelligence"]
  | "tasks" => some ["task_scheduler"]
  | "task_scheduler" => some ["task_scheduler"]
  | "task_scheduling" => some ["task_scheduler"]
  | "both" => some ["weather_watcher", "growth_stage_monitor"]
  | "comprehensive" => some comprehensiveAgents
  | "comprehensive_analysis" => some comprehensiveAgents
  | "auto" => none
  | _ => none

/-- `SuperAgent._select_agents_by_strategy`. -/
def selectAgentsByStrategy (context : Option JValue) : Option (List String) :=
  match getStrategyFromContext context with
  | none => none
  | some s =>
    if s = "" then none
    else
      match strategyMapping s with
      | none => none
      | some selected => some (safeList selected 5)

/-- `location = context.get("location") or {}` of
`SuperAgent._select_agents_by_payload`. -/
def locationOf (fields : List (String × JValue)) : JValue :=
  match dictGet fields "location" with
  | some v => if truthy v then v else JValue.obj []
  | none => JValue.obj []

/-- `crop = context.get("crop") or context.get("crop_data") or {}` of
`SuperAgent._select_agents_by_payload`. -/
def cropOf (fields : List (String × JValue)) : JValue :=
  let c1 := (dictGet fields "crop").getD JValue.null
  if truthy c1 then c1
  else
    let c2 := (dictGet fields "crop_data").getD JValue.null
    if truthy c2 then c2 else JValue.obj []

/-- The `has_location` test of `SuperAgent._select_agents_by_payload`:
the value must be a dict carrying a truthy `latitude`/`longitude` pair or
a truthy `lat`/`lon` pair. -/
def hasLocation (location : JValue) : Bool :=
  match location with
  | JValue.obj lf =>
    (truthyOpt (dictGet lf "latitude") && truthyOpt (dictGet lf "longitude"))
      || (truthyOpt (dictGet lf "lat") && truthyOpt (dictGet lf "lon"))
  | _ => false

/-- `SuperAgent._select_agents_by_payload`. -/
def selectAgentsByPayload (context : Option JValue) : Option (List String) :=
  match context with
  | some (JValue.obj fields) =>
    if fields.isEmpty then none
    else
      let hasLoc := hasLocation (locationOf fields)
      let hasCrop := truthy (cropOf fields)
      if hasLoc && hasCrop then
        some (safeList ["weather_watcher", "growth_stage_monitor", "irrigation_planner",
                        "fertilizer_advisor", "soil_health"] 5)
      else if hasLoc then some (safeList ["weather_watcher"] 5)
      else if hasCrop then some (safeList ["growth_stage_monitor", "soil_health"] 5)
      else none
  | _ => none

/-- A regex word character (`\w`): letters, digits, or underscore.  Python's
`re` is Unicode-aware; `Char.isAlphanum` approximates the letter classes
relevant to the curated ASCII keyword sets. -/
def isWordChar (c : Char) : Bool := c.isAlphanum || c == '_'

/-- Whether position `i` of `q` holds a word character (out of range counts
as a non-word position, as at the ends of the subject string). -/
def wordCharAt (q : List Char) (i : Nat) : Bool :=
  match q[i]? with
  | some c => isWordChar c
  | none => false

/-- A `\b` word boundary at offset `p` of `q`: the wordness of the
character before `p` differs from the wordness of the character at `p`. -/
def boundaryAt (q : List Char) (p : Nat) : Bool :=
  (if p = 0 then false else wordCharAt q (p - 1)) != wordCharAt q p

/-- `re.search(r"\b" + re.escape(k) + r"\b", q)` for a literal keyword `k`:
some offset of `q` starts a copy of `k` flanked by word boundaries. -/
def wordBoundedMatch (q k : List Char) : Bool :=
  (List.range (q.length + 1)).any
    (fun i => List.isPrefixOf k (q.drop i) && boundaryAt q i && boundaryAt q (i + k.length))

/-- The `has_any` helper of `SuperAgent._select_agents_by_keywords`. -/
def hasAnyKeyword (q : List Char) (keywords : List String) : Bool :=
  keywords.any (fun k => wordBoundedMatch q k.toList)

/-- The `selected` list assembled by `SuperAgent._select_agents_by_keywords`
from its `wants_*` flags, in the fixed source append order, before
`_safe_list` validation. -/
def keywordAgents (qc : List Char) : List String :=
  let wantsSeeds := hasAnyKeyword qc ["seed", "seeds", "variety", "varieties", "hybrid", "gmo"]
    let wantsCropPlanning := hasAnyKeyword qc ["crop", "crops", "plant", "sow", "kharif", "rabi", "season"]
    let wantsWeather := hasAnyKeyword qc
      ["weather", "rain", "rainfall", "temperature", "forecast", "humidity", "wind", "storm", "drought"]
    let wantsGrowth := hasAnyKeyword qc
      ["growth", "stage", "seedling", "vegetative", "flowering", "maturity", "harvest", "crop health", "plant health"]
    let wantsIrrigation := hasAnyKeyword qc ["irrigation", "irrigate", "watering", "drip", "sprinkler", "pump"]
    let wantsFertilizer := hasAnyKeyword qc ["fertilizer", "nutrient", "npk", "urea", "dap", "mop", "compost", "manure"]
    let wantsSoil := hasAnyKeyword qc ["soil", "ph", "salinity", "organic matter", "soil test"]
    let wantsPest := hasAnyKeyword qc
      ["pest", "disease", "fungus", "blight", "leaf spot", "insect", "spots", "yellow", "yellowing", "wilting", "curl", "mosaic", "rot"]
    let wantsMarket := hasAnyKeyword qc ["market", "price", "sell", "mandi", "apmc", "profit", "revenue"]
    let wantsTasks := hasAnyKeyword qc ["task", "schedule", "plan", "today", "tomorrow", "weekly", "daily", "reminder"]
    let wantsInsurance := hasAnyKeyword qc ["insurance", "risk", "claim"]
    (if wantsCropPlanning then ["crop_selector"] else [])
      ++ (if wantsSeeds then ["seed_selection"] else [])
      ++ (if wantsWeather then ["weather_watcher"] else [])
      ++ (if wantsGrowth then ["growth_stage_monitor"] else [])
      ++ (if wantsIrrigation then ["irrigation_planner"] else [])
      ++ (if wantsFertilizer then ["fertilizer_advisor"] else [])
      ++ (if wantsSoil then ["soil_health"] else [])
      ++ (if wantsPest then ["pest_disease_diagnostic"] else [])
      ++ (if wantsMarket then ["market_intelligence"] else [])
      ++ (if wantsTasks then ["task_scheduler"] else [])
      ++ (if wantsInsurance then ["crop_insurance_risk"] else [])

/-- `SuperAgent._select_agents_by_keywords`: lowercase the query, test the
curated keyword sets with word-boundary matching (`keywordAgents`), and
validate via `_safe_list`; an empty result becomes `None`
(`return selected or None`). -/
def selectAgentsByKeywords (query : String) : Option (List String) :=
  let q := pyLower query
  if q = "" then none
  else
    let selected := safeList (keywordAgents q.toList) 5
    if selected = [] then none else some selected

/-- The default pair returned by the last line of `SuperAgent._select_agents`. -/
def defaultPair : List String := ["crop_selector", "farmer_coach"]

/-- `SuperAgent._select_agents`.  The model-assisted stage
(`_select_agents_with_gemini`) performs a network call; its returned list
is abstracted as the `geminiSelected` oracle parameter, to which the
selector applies `_safe_list` exactly as the source does.  Each `if stage:`
truthiness test keeps a stage's result only when it is a non-`None`,
non-empty list. -/
def selectAgents (query : String) (context : Option JValue) (geminiSelected : List String) : List String :=
  match selectAgentsByStrategy context with
  | some (a :: rest) => a :: rest
  | _ =>
    match selectAgentsByKeywords query with
    | some (a :: rest) => a :: rest
    | _ =>
      match selectAgentsByPayload context with
      | some (a :: rest) => a :: rest
      | _ =>
        let g := safeList geminiSelected 5
        if g ≠ [] then g
        else safeList defaultPair 2

/-- First non-empty list of a sequence of candidate lists (the shape of a
strict, non-merging fallback chain). -/
def firstNonempty : List (List String) → List String
  | [] => []
  | l :: ls => if l.isEmpty then firstNonempty ls else l

/-- `Optional[List[str]]` collapsed to the list a truthiness test sees. -/
def optList (o : Option (List String)) : List String := o.getD []

/-- The `AgentResponse` dataclass.  Wall-clock `execution_time` is outside
the shallow embedding and is fixed at `0`. -/
structure AgentResponse where
  agent_name : String
  success : Bool
  data : JValue
  error : Option String := none
  execution_time : Rat := 0

/-- `SuperAgent._execute_single_agent`.  Everything that can fault inside
the `try` block — registry instantiation, the agent's `handle` coroutine,
and the 30-second `asyncio.wait_for` timeout (re-raised as `TimeoutError`)
— is abstracted into the `invoke` oracle: `.ok d` is a completed run with
payload `d`, `.error e` is any raised fault or timeout with message `e`.
The `except` clause converts a fault into a failed `AgentResponse` with
the error populated. -/
def executeSingleAgent (invoke : String → Except String JValue) (agentName : String) : AgentResponse :=
  match invoke agentName with
  | Except.ok d => { agent_name := agentName, success := true, data := d }
  | Except.error e => { agent_name := agentName, success := false, data := JValue.obj [], error := some e }

/-- `SuperAgent._execute_agents`: one task per requested agent, results
appended in task order (the order of `agent_names`).  The
`isinstance(result, Exception)` arm of the gather loop is defensive dead
code here, since `_execute_single_agent` already catches every fault. -/
def executeAgents (invoke : String → Except String JValue) (agentNames : List String) : List AgentResponse :=
  agentNames.map (executeSingleAgent invoke)

/-- The `add_list` helper of `SuperAgent._build_sop_from_agents`, on a
string item: append the trimmed string when non-blank. -/
def addListStr (dst : List String) (s : String) : List String :=
  if pyTrim s ≠ "" then dst ++ [pyTrim s] else dst

/-- The list arm of `add_list`: walk the items, appending `json.dumps` of
dict items and the trimmed `str()` of other non-`None` items while the
destination stays under its cap. -/
def addListArr (limit : Nat) : List String → List JValue → List String
  | dst, [] => dst
  | dst, x :: rest =>
    if limit ≤ dst.length then dst
    else
      match x with
      | JValue.obj fs => addListArr limit (dst ++ [jsonDumps (JValue.obj fs)]) rest
      | JValue.null => addListArr limit dst rest
      | v =>
        let s := pyTrim (pyStr v)
        if s ≠ "" then addListArr limit (dst ++ [s]) rest
        else addListArr limit dst rest

/-- `add_list(dst, items, limit)` of `SuperAgent._build_sop_from_agents`. -/
def addList (dst : List String) (items : Option JValue) (limit : Nat) : List String :=
  if limit ≤ dst.length then dst
  else
    match items with
    | some (JValue.str s) =>
      if pyTrim s ≠ "" then dst ++ [pyTrim s]
      else dst
    | some (JValue.arr xs) => addListArr limit dst xs
    | _ => dst

/-- The `answer` loop of `SuperAgent._build_sop_from_agents`: the first
successful dict-payload response whose `response` field is a non-blank
string, trimmed. -/
def firstResponseText : List AgentResponse → Option String
  | [] => none
  | r :: rest =>
    if r.success then
      match r.data with
      | JValue.obj fs =>
        match dictGet fs "response" with
        | some (JValue.str s) =>
          if pyTrim s ≠ "" then some (pyTrim s) else firstResponseText rest
        | _ => firstResponseText rest
      | _ => firstResponseText rest
    else firstResponseText rest

/-- The three `add_list` accumulations of `SuperAgent._build_sop_from_agents`
folded over the agent responses (skipping non-successful or non-dict
payloads). -/
def collectSopLists (agentResponses : List AgentResponse) : List String × List String × List String :=
  agentResponses.foldl
    (fun acc r =>
      if r.success then
        match r.data with
        | JValue.obj fs =>
          (addList acc.1 (dictGet fs "recommendations") 3,
           addList acc.2.1 (dictGet fs "warnings") 2,
           addList acc.2.2 (dictGet fs "next_steps") 3)
        | _ => acc
      else acc)
    ([], [], [])

/-- `SuperAgent._build_sop_from_agents`: the deterministic (low-LLM)
synthesis path.  The hardcoded confidence constants 0.6 / 0.4 are the
rationals 3/5 and 2/5. -/
def buildSopFromAgents (query : String) (agentResponses : List AgentResponse) : JValue :=
  let agentsUsed := (agentResponses.filter (fun r => r.success)).map (fun r => r.agent_name)
  let lists := collectSopLists agentResponses
  let recommendations := lists.1
  let warnings := lists.2.1
  let nextSteps := lists.2.2
  let nextSteps :=
    if nextSteps.isEmpty then ["Share location + crop + growth stage for more precise advice."]
    else nextSteps
  let answer :=
    if agentsUsed.isEmpty then
      "Please provide crop and location details for a precise recommendation."
    else
      match firstResponseText agentResponses with
      | some t => t
      | none => "Response ready."
  let recommendations :=
    if recommendations.isEmpty then ["Provide crop name and current growth stage."]
    else recommendations
  JValue.obj [
    ("answer", JValue.str answer),
    ("recommendations", JValue.arr ((recommendations.take 3).map JValue.str)),
    ("warnings", JValue.arr ((warnings.take 2).map JValue.str)),
    ("next_steps", JValue.arr ((nextSteps.take 3).map JValue.str)),
    ("meta", JValue.obj [
      ("agents_used", JValue.arr (agentsUsed.map JValue.str)),
      ("confidence", JValue.num (if agentsUsed.isEmpty then (2 : Rat)/5 else (3 : Rat)/5))])]

/-- The list stored under key `k` of a synthesized answer (empty when the
value is absent or not a list). -/
def sopList (sop : JValue) (k : String) : List JValue :=
  match sop with
  | JValue.obj fs =>
    match dictGet fs k with
    | some (JValue.arr xs) => xs
    | _ => []
  | _ => []

/-- The `answer` string of a synthesized answer (empty when absent or not
a string). -/
def sopAnswer (sop : JValue) : String :=
  match sop with
  | JValue.obj fs =>
    match dictGet fs "answer" with
    | some (JValue.str s) => s
    | _ => ""
  | _ => ""

/-- Python `hay.find(sub, start)`: smallest offset `i ≥ start` where `sub`
occurs, else `-1`. -/
def pyFindFrom (hay sub : List Char) (start : Nat) : Int :=
  match (List.range (hay.length + 1)).find?
      (fun i => decide (start ≤ i) && List.isPrefixOf sub (hay.drop i)) with
  | some i => Int.ofNat i
  | none => -1

/-- Python `hay.find(sub)`. -/
def pyFind (hay sub : List Char) : Int := pyFindFrom hay sub 0

/-- Python `hay.rfind(sub)`: largest occurrence offset, else `-1`. -/
def pyRFind (hay sub : List Char) : Int :=
  match ((List.range (hay.length + 1)).filter
      (fun i => List.isPrefixOf sub (hay.drop i))).getLast? with
  | some i => Int.ofNat i
  | none => -1

/-- Clamp one Python slice index to `[0, len]`, resolving negatives
against the length. -/
def pySliceIdx (len : Nat) (a : Int) : Nat :=
  if a < 0 then ((len : Int) + a).toNat else min a.toNat len

/-- Python `xs[a:b]` (one-step slices only). -/
def pySlice (xs : List Char) (a b : Int) : List Char :=
  (xs.take (pySliceIdx xs.length b)).drop (pySliceIdx xs.length a)

/-- Python substring containment `sub in hay`. -/
def strContains (hay sub : String) : Bool :=
  0 ≤ pyFind hay.toList sub.toList

/-- The extraction step of `GeminiService._parse_json_response`: take the
body of a ```` ```json ```` fenced block when one is present, else the
substring from the first `\x7b` to the last `\x7d`.  The string slicing
cannot fault, so it sits outside the abstracted `json.loads` call. -/
def extractJsonStr (response : String) : String :=
  let cs := response.toList
  let fence := "\x60\x60\x60json".toList
  if 0 ≤ pyFind cs fence then
    let start := pyFind cs fence + 7
    let stop := pyFindFrom cs "\x60\x60\x60".toList start.toNat
    pyTrim (String.mk (pySlice cs start stop))
  else
    let start := pyFind cs ['\x7b']
    let stop := pyRFind cs ['\x7d'] + 1
    String.mk (pySlice cs start stop)

/-- `GeminiService._parse_json_response`, with `json.loads` abstracted as
the `loads` oracle (`none` = any parse exception).  A parse failure is
caught and turned into the fixed error dict — the method never raises. -/
def parseJsonResponse (loads : String → Option JValue) (response : String) : JValue :=
  match loads (extractJsonStr response) with
  | some v => v
  | none =>
    JValue.obj [("error", JValue.str "Failed to parse response"),
                ("raw_response", JValue.str response)]

/-- `isinstance(parsed, dict) and parsed.get("answer")` — the guard under
which `_synthesize_response` keeps the model-produced synthesis. -/
def parsedUsable : JValue → Bool
  | JValue.obj fs => truthyOpt (dictGet fs "answer")
  | _ => false

/-- `SuperAgent._synthesize_response`.  The prompt construction is pure
and feeds only the external client, which is abstracted as `genOutcome`
(`.ok r` = the client returned text `r`, `.error e` = the call raised and
was caught by the `except` clause). -/
def synthesizeResponse (lowLlmMode : Bool) (genOutcome : Except String String)
    (loads : String → Option JValue) (query : String)
    (agentResponses : List AgentResponse) : JValue :=
  if lowLlmMode then buildSopFromAgents query agentResponses
  else
    match genOutcome with
    | Except.error _ => buildSopFromAgents query agentResponses
    | Except.ok response =>
      let parsed := parseJsonResponse loads response
      if parsedUsable parsed then parsed
      else buildSopFromAgents query agentResponses

/-- The four canned reply strings of `create_simple_greeting_response`. -/
def greetingReply : String :=
  "Hello! I\x27m FarmXpert, your AI farming assistant. I can help you with crop selection, pest management, irrigation planning, weather forecasts, and much more. What would you like to know about your farm today?"

def howAreYouReply : String :=
  "I\x27m doing great, thank you for asking! I\x27m here and ready to help you with all your farming needs. What can I assist you with today?"

def thanksReply : String :=
  "You\x27re very welcome! I\x27m always here to help. Feel free to ask me anything about farming, crops, weather, or agricultural best practices anytime!"

def goodbyeReply : String :=
  "Goodbye! Wishing you a bountiful harvest. Come back anytime you need farming advice. Happy farming! 🌾"

/-- `create_simple_greeting_response` of `super_agent_nl_formatter.py`:
exact membership for the greeting list, substring tests for the other
three phrase groups, `None` otherwise.  The source builds each reply from
adjacent string literals; the joined strings appear here. -/
def createSimpleGreetingResponse (query : String) : Option String :=
  let q := pyTrim (pyLower query)
  if ["hi", "hello", "hey", "namaste", "namaskar"].contains q then some greetingReply
  else if ["how are you", "how r u", "what\x27s up", "whats up"].any (fun p => strContains q p) then
    some howAreYouReply
  else if ["thank you", "thanks", "thank u", "dhanyavaad"].any (fun p => strContains q p) then
    some thanksReply
  else if ["bye", "goodbye", "see you", "good night"].any (fun p => strContains q p) then
    some goodbyeReply
  else none

/-- Python iteration over a truthy value in the formatter's `for` loops:
lists yield their items, strings yield their characters.  Other truthy
values would raise in Python; they are unreachable from the synthesizer's
outputs and yield `[]` here. -/
def jItems : JValue → List JValue
  | JValue.arr xs => xs
  | JValue.str s => s.toList.map (fun c => JValue.str (String.mk [c]))
  | _ => []

/-- `format_response_as_natural_language` of `super_agent_nl_formatter.py`.
List items are rendered through `str()` (`pyStr`) as the source's
f-strings do.  A truthy non-string `answer` would make Python's final
`"".join` raise; such a value is rendered via `pyStr` here and is
unreachable from the deterministic synthesizer. -/
def formatResponseAsNaturalLanguage (query : String) (responseData : JValue)
    (agentNames : List String) (context : Option JValue) : String :=
  let conversational :=
    match context with
    | some (JValue.obj fs) =>
      if fs.isEmpty then false else truthyOpt (dictGet fs "conversational")
    | _ => false
  let fs := match responseData with | JValue.obj fs => fs | _ => []
  let answer := (dictGet fs "answer").getD (JValue.str "")
  let recommendations := (dictGet fs "recommendations").getD (JValue.arr [])
  let warnings := (dictGet fs "warnings").getD (JValue.arr [])
  let nextSteps := (dictGet fs "next_steps").getD (JValue.arr [])
  let parts : List String :=
    (if truthy answer then [pyStr answer] else [])
      ++ (if truthy recommendations then
            (if conversational then ["\n\nHere\x27s what I recommend:"]
             else ["\n\n**Recommendations:**"])
              ++ (jItems recommendations).enum.map
                  (fun p => "\n" ++ toString (p.1 + 1) ++ ". " ++ pyStr p.2)
          else [])
      ++ (if truthy warnings then
            (if conversational then ["\n\n⚠️ Important things to note:"]
             else ["\n\n**Important Warnings:**"])
              ++ (jItems warnings).map (fun w => "\n• " ++ pyStr w)
          else [])
      ++ (if truthy nextSteps then
            (if conversational then ["\n\nNext, you should:"]
             else ["\n\n**Next Steps:**"])
              ++ (jItems nextSteps).enum.map
                  (fun p => "\n" ++ toString (p.1 + 1) ++ ". " ++ pyStr p.2)
          else [])
  if parts.isEmpty then
    "I understand your question, but I need more information to provide a helpful answer. Could you please provide more details about your crop, location, or specific concern?"
  else String.join parts

/-- The `SuperAgentResponse` dataclass.  `execution_time` (wall clock) is
fixed at `0`; `recommendations` and `warnings` keep their dataclass
defaults, which `process_query` never overrides. -/
structure SuperAgentResponse where
  query : String
  success : Bool
  response : JValue
  natural_language : String := ""
  agent_responses : List AgentResponse := []
  recommendations : List String := []
  warnings : List String := []
  execution_time : Rat := 0
  session_id : Option String := none

/-- The external collaborators one `process_query` call consumes, passed
as oracles: the model-assisted selection result, the per-agent invocation
outcomes, the synthesis model call, `json.loads`, and the process-wide
`low_llm_mode` flag. -/
structure Oracles where
  geminiSelected : List String
  invoke : String → Except String JValue
  genOutcome : Except String String
  loads : String → Option JValue
  lowLlmMode : Bool

/-- `SuperAgent.process_query`: greeting short-circuit first, then
selection → execution → synthesis → formatting.  The outer `except`
branch is unreachable in the embedding because every embedded stage is
total (each stage catches its own faults in the source as well); logging
calls are effect-free and omitted. -/
def processQuery (o : Oracles) (query : String) (context : Option JValue)
    (sessionId : Option String) : SuperAgentResponse :=
  match createSimpleGreetingResponse query with
  | some greeting =>
    { query := query
      success := true
      response := JValue.obj [("answer", JValue.str greeting)]
      natural_language := greeting
      agent_responses := []
      session_id := sessionId }
  | none =>
    let agentSelection := selectAgents query context o.geminiSelected
    let agentResponses := executeAgents o.invoke agentSelection
    let finalResponse := synthesizeResponse o.lowLlmMode o.genOutcome o.loads query agentResponses
    let agentNames := (agentResponses.filter (fun r => r.success)).map (fun r => r.agent_name)
    let naturalLanguage := formatResponseAsNaturalLanguage query finalResponse agentNames context
    { query := query
      success := true
      response := finalResponse
      natural_language := naturalLanguage
      agent_responses := agentResponses
      session_id := sessionId }

/-! ## Helper lemmas about `_safe_list` -/

theorem safeListAux_mem (m : Nat) :
    ∀ (items out : List String), ∀ a ∈ safeListAux m items out,
      a ∈ out ∨ catalogKeys.contains a = true := by
  intro items
  induction items with
  | nil => intro out a ha; exact Or.inl ha
  | cons item rest ih =>
    intro out a ha
    rw [safeListAux] at ha
    split at ha
    · exact ih out a ha
    · split at ha
      · exact ih out a ha
      · split at ha
        · exact ih out a ha
        · rename_i hcat
          have hcat' : catalogKeys.contains item = true := by simpa using hcat
          split at ha
          · rcases List.mem_append.mp ha with h | h
            · exact Or.inl h
            · rw [List.mem_singleton.mp h]; exact Or.inr hcat'
          · rcases ih (out ++ [item]) a ha with h | h
            · rcases List.mem_append.mp h with h' | h'
              · exact Or.inl h'
              · rw [List.mem_singleton.mp h']; exact Or.inr hcat'
            · exact Or.inr h

theorem safeListAux_nodup (m : Nat) :
    ∀ (items out : List String), out.Nodup → (safeListAux m items out).Nodup := by
  intro items
  induction items with
  | nil => intro out h; exact h
  | cons item rest ih =>
    intro out h
    rw [safeListAux]
    split
    · exact ih out h
    · split
      · exact ih out h
      · rename_i hmem
        split
        · exact ih out h
        · have hni : item ∉ out := by simpa using hmem
          have hnodup : (out ++ [item]).Nodup := by
            simp [List.nodup_append, h, hni]
          split
          · exact hnodup
          · exact ih (out ++ [item]) hnodup

theorem safeListAux_length (m : Nat) :
    ∀ (items out : List String), out.length < m → (safeListAux m items out).length ≤ m := by
  intro items
  induction items with
  | nil => intro out h; exact Nat.le_of_lt h
  | cons item rest ih =>
    intro out h
    rw [safeListAux]
    split
    · exact ih out h
    · split
      · exact ih out h
      · split
        · exact ih out h
        · split
          · simp only [List.length_append, List.length_singleton]
            omega
          · rename_i hgt
            refine ih (out ++ [item]) ?_
            simp only [List.length_append, List.length_singleton]
            omega

theorem safeList_mem {items : List String} {m : Nat} {a : String}
    (h : a ∈ safeList items m) : catalogKeys.contains a = true := by
  rcases safeListAux_mem m items [] a h with h' | h'
  · cases h'
  · exact h'

theorem safeList_nodup (items : List String) (m : Nat) : (safeList items m).Nodup :=
  safeListAux_nodup m items [] List.nodup_nil

theorem safeList_length (items : List String) {m : Nat} (h : 0 < m) :
    (safeList items m).length ≤ m :=
  safeListAux_length m items [] (by simpa using h)

/-- Every value the strategy stage returns came out of `_safe_list` with
the cap 5. -/
theorem selectAgentsByStrategy_shape {ctx : Option JValue} {l : List String}
    (h : selectAgentsByStrategy ctx = some l) : ∃ sel, l = safeList sel 5 := by
  unfold selectAgentsByStrategy at h
  split at h
  · cases h
  · split at h
    · cases h
    · split at h
      · cases h
      · exact ⟨_, (Option.some.inj h).symm⟩

/-- Every value the keyword stage returns came out of `_safe_list` with
the cap 5. -/
theorem selectAgentsByKeywords_shape {q : String} {l : List String}
    (h : selectAgentsByKeywords q = some l) : ∃ sel, l = safeList sel 5 := by
  simp only [selectAgentsByKeywords] at h
  split at h
  · cases h
  · split at h
    · cases h
    · exact ⟨_, (Option.some.inj h).symm⟩

/-- Every value the payload stage returns came out of `_safe_list` with
the cap 5. -/
theorem selectAgentsByPayload_shape {ctx : Option JValue} {l : List String}
    (h : selectAgentsByPayload ctx = some l) : ∃ sel, l = safeList sel 5 := by
  simp only [selectAgentsByPayload] at h
  split at h
  · split at h
    · cases h
    · split at h
      · exact ⟨_, (Option.some.inj h).symm⟩
      · split at h
        · exact ⟨_, (Option.some.inj h).symm⟩
        · split at h
          · exact ⟨_, (Option.some.inj h).symm⟩
          · cases h
  · cases h

/-! ## Claim theorems -/

/-- C1: agent selection is a strict non-merging fallback chain — for every
query, context and model-assisted result, `_select_agents` returns exactly
the first non-empty list among the explicit-strategy stage, the keyword
stage, the payload stage, the validated model-assisted stage, and the
fixed default pair, never merging the outputs of distinct stages. -/
theorem selection_is_strict_nonmerging_fallback_chain
    (query : String) (context : Option JValue) (geminiSelected : List String) :
    selectAgents query context geminiSelected =
      firstNonempty [optList (selectAgentsByStrategy context),
                     optList (selectAgentsByKeywords query),
                     optList (selectAgentsByPayload context),
                     safeList geminiSelected 5,
                     safeList defaultPair 2] := by
  have hdp : (safeList defaultPair 2).isEmpty = false := by decide
  rw [selectAgents]
  rcases hs : selectAgentsByStrategy context with _ | (_ | ⟨a, rest⟩) <;>
  rcases hk : selectAgentsByKeywords query with _ | (_ | ⟨b, rest2⟩) <;>
  rcases hp : selectAgentsByPayload context with _ | (_ | ⟨c, rest3⟩) <;>
  simp only [firstNonempty, optList, Option.getD, List.isEmpty_nil, List.isEmpty_cons,
    if_true, if_false, hdp, Bool.false_eq_true] <;>
  first
  | rfl
  | (by_cases hg : safeList geminiSelected 5 = [] <;>
     simp [hg, List.isEmpty_iff, hdp])

/-- C2: for every query, context and model-assisted result, the selected
list contains only catalog identifiers, has no duplicates, and has length
at most 5 (unknown identifiers having been silently dropped by
`_safe_list` at every stage). -/
theorem selection_respects_catalog_dedup_and_cap
    (query : String) (context : Option JValue) (geminiSelected : List String) :
    (∀ a ∈ selectAgents query context geminiSelected, catalogKeys.contains a = true)
      ∧ (selectAgents query context geminiSelected).Nodup
      ∧ (selectAgents query context geminiSelected).length ≤ 5 := by
  have hprops : ∀ (sel : List String) (m : Nat), 0 < m → m ≤ 5 →
      (∀ a ∈ safeList sel m, catalogKeys.contains a = true)
        ∧ (safeList sel m).Nodup ∧ (safeList sel m).length ≤ 5 := by
    intro sel m h0 h5
    exact ⟨fun a ha => safeList_mem ha, safeList_nodup sel m,
      le_trans (safeList_length sel h0) h5⟩
  rw [selectAgents]
  rcases hs : selectAgentsByStrategy context with _ | (_ | ⟨a, rest⟩) <;>
  rcases hk : selectAgentsByKeywords query with _ | (_ | ⟨b, rest2⟩) <;>
  rcases hp : selectAgentsByPayload context with _ | (_ | ⟨c, rest3⟩) <;>
  dsimp only <;>
  first
  | (obtain ⟨sel, hsel⟩ := selectAgentsByStrategy_shape hs
     rw [hsel]; exact hprops sel 5 (by norm_num) (by norm_num))
  | (obtain ⟨sel, hsel⟩ := selectAgentsByKeywords_shape hk
     rw [hsel]; exact hprops sel 5 (by norm_num) (by norm_num))
  | (obtain ⟨sel, hsel⟩ := selectAgentsByPayload_shape hp
     rw [hsel]; exact hprops sel 5 (by norm_num) (by norm_num))
  | (by_cases hg : safeList geminiSelected 5 = []
     · simp only [hg, ne_eq, not_true_eq_false, if_false, ite_false]
       exact hprops defaultPair 2 (by norm_num) (by norm_num)
     · simp only [ne_eq, hg, not_false_eq_true, if_true, ite_true]
       exact hprops geminiSelected 5 (by norm_num) (by norm_num))

/-- A context carrying `strategy: "comprehensive"` directly. -/
def ctxComprehensive : Option JValue :=
  some (JValue.obj [("strategy", JValue.str "comprehensive")])

/-- The first five entries of the comprehensive list — what `_safe_list`'s
cap of 5 leaves of the six-agent mapping value. -/
def comprehensiveFirstFive : List String :=
  ["weather_watcher", "soil_health", "irrigation_planner", "fertilizer_advisor",
   "market_intelligence"]

/-- C3 counterexample: with `strategy: "comprehensive"` the selector does
NOT return the fixed six-agent comprehensive list — `_safe_list`
truncates it to 5 entries, dropping `task_scheduler`, so the claimed
equality fails at this concrete input. -/
theorem comprehensive_strategy_six_agents_counterexample :
    getStrategyFromContext ctxComprehensive = some "comprehensive"
      ∧ selectAgents "plan my farm" ctxComprehensive [] ≠ comprehensiveAgents := by
  constructor
  · rfl
  · decide

/-- C3 (amended): for any context whose normalised strategy (direct or
under `routing.strategy`) is `"comprehensive"`, and any query and
model-assisted result, the selected set equals the first five agents of
the comprehensive list (weather_watcher, soil_health, irrigation_planner,
fertilizer_advisor, market_intelligence) — the sixth, task_scheduler, is
cut by the selection cap of 5. -/
theorem comprehensive_strategy_selects_first_five
    (query : String) (context : Option JValue) (geminiSelected : List String)
    (h : getStrategyFromContext context = some "comprehensive") :
    selectAgents query context geminiSelected = comprehensiveFirstFive := by
  have hstage : selectAgentsByStrategy context = some comprehensiveFirstFive := by
    rw [selectAgentsByStrategy, h]
    decide
  rw [selectAgents, hstage, comprehensiveFirstFive]

/-- Witness for `comprehensive_strategy_selects_first_five` at a concrete
context. -/
theorem comprehensive_strategy_selects_first_five_witness :
    getStrategyFromContext ctxComprehensive = some "comprehensive"
      ∧ selectAgents "plan my farm" ctxComprehensive [] = comprehensiveFirstFive :=
  ⟨rfl, comprehensive_strategy_selects_first_five "plan my farm" ctxComprehensive [] rfl⟩

/-- C4: a fault (raised exception or the 30-second timeout, both of which
reach the same `except` clause) in one agent's invocation is converted
into a failed `AgentResponse` with `success = false` and `error`
populated for that agent alone; every other agent's result is exactly
what it would be under any invocation behaviour for the faulty agent —
one agent's fault never aborts or alters the rest of the batch. -/
theorem single_agent_fault_isolated
    (invoke invoke' : String → Except String JValue) (agentNames : List String)
    (a e : String)
    (hfault : invoke a = Except.error e)
    (hagree : ∀ b, b ≠ a → invoke' b = invoke b) :
    (∀ i : Nat, agentNames[i]? = some a →
       (executeAgents invoke agentNames)[i]? =
         some { agent_name := a, success := false, data := JValue.obj [],
                error := some e, execution_time := 0 })
      ∧ (∀ (i : Nat) (b : String), agentNames[i]? = some b → b ≠ a →
          (executeAgents invoke agentNames)[i]? = (executeAgents invoke' agentNames)[i]?) := by
  constructor
  · intro i hi
    rw [executeAgents, List.getElem?_map, hi]
    simp [executeSingleAgent, hfault]
  · intro i b hi hb
    rw [executeAgents, executeAgents, List.getElem?_map, List.getElem?_map, hi]
    simp [executeSingleAgent, hagree b hb]

/-- A batch of invocation outcomes in which `soil_health` faults. -/
def invFaulty : String → Except String JValue :=
  fun n => if n = "soil_health" then Except.error "boom"
           else Except.ok (JValue.obj [("response", JValue.str "ok")])

/-- The same batch with the `soil_health` fault repaired. -/
def invHealthy : String → Except String JValue :=
  fun n => if n = "soil_health" then Except.ok (JValue.obj []) else invFaulty n

/-- Witness for `single_agent_fault_isolated` on a concrete two-agent batch. -/
theorem single_agent_fault_isolated_witness :
    ((executeAgents invFaulty ["weather_watcher", "soil_health"])[1]? =
        some { agent_name := "soil_health", success := false, data := JValue.obj [],
               error := some "boom", execution_time := 0 })
      ∧ ((executeAgents invFaulty ["weather_watcher", "soil_health"])[0]? =
          (executeAgents invHealthy ["weather_watcher", "soil_health"])[0]?) := by
  have h := single_agent_fault_isolated invFaulty invHealthy
    ["weather_watcher", "soil_health"] "soil_health" "boom"
    (by rfl) (by intro b hb; simp [invHealthy, hb])
  exact ⟨h.1 1 rfl, h.2 0 "weather_watcher" rfl (by decide)⟩

/-- C5: the executor returns exactly one `AgentResponse` per requested
agent, in the same order as the requested agent list — for any invocation
outcomes whatsoever. -/
theorem executor_one_result_per_agent_in_order
    (invoke : String → Except String JValue) (agentNames : List String) :
    (executeAgents invoke agentNames).length = agentNames.length
      ∧ (executeAgents invoke agentNames).map AgentResponse.agent_name = agentNames := by
  constructor
  · exact List.length_map _ _
  · rw [executeAgents, List.map_map]
    have : (AgentResponse.agent_name ∘ executeSingleAgent invoke) = fun n => n := by
      funext n
      simp only [Function.comp_apply]
      rw [executeSingleAgent]
      cases invoke n <;> rfl
    rw [this, List.map_id']

/-- The loop of `_build_sop_from_agents` only ever surfaces a non-blank
trimmed string as the free-text answer. -/
theorem firstResponseText_ne_empty :
    ∀ {rs : List AgentResponse} {t : String}, firstResponseText rs = some t → t ≠ "" := by
  intro rs
  induction rs with
  | nil => intro t h; cases h
  | cons r rest ih =>
    intro t h
    rw [firstResponseText] at h
    split at h
    · repeat' split at h
      all_goals first
        | exact ih h
        | (rename_i hne
           rw [← Option.some.inj h]
           exact hne)
    · exact ih h

/-- A usable free-text `response` can only come from a successful agent. -/
theorem firstResponseText_success :
    ∀ {rs : List AgentResponse} {t : String}, firstResponseText rs = some t →
      rs.any (fun r => r.success) = true := by
  intro rs
  induction rs with
  | nil => intro t h; cases h
  | cons r rest ih =>
    intro t h
    rw [firstResponseText] at h
    split at h
    · rename_i hsucc
      simp [List.any_cons, hsucc]
    · simp [List.any_cons, ih h]

/-- `agents_used` is empty exactly when no agent succeeded. -/
theorem agentsUsed_isEmpty (rs : List AgentResponse) :
    ((rs.filter (fun r => r.success)).map (fun r => r.agent_name)).isEmpty
      = !rs.any (fun r => r.success) := by
  induction rs with
  | nil => rfl
  | cons r rest ih =>
    by_cases h : r.success = true
    · simp [List.filter_cons, h]
    · simp only [Bool.not_eq_true] at h
      simp [List.filter_cons, h, ih]

/-- What `_build_sop_from_agents` stores under `answer`, as one equation:
the first successful agent's non-blank trimmed `response` string if any,
else the generic ready/need-more-information strings keyed on whether any
agent succeeded. -/
theorem buildSop_answer_eq (query : String) (rs : List AgentResponse) :
    sopAnswer (buildSopFromAgents query rs) =
      match firstResponseText rs with
      | some t => t
      | none =>
        if rs.any (fun r => r.success) then "Response ready."
        else "Please provide crop and location details for a precise recommendation." := by
  have hget : sopAnswer (buildSopFromAgents query rs) =
      (if ((rs.filter (fun r => r.success)).map (fun r => r.agent_name)).isEmpty then
        "Please provide crop and location details for a precise recommendation."
      else
        match firstResponseText rs with
        | some t => t
        | none => "Response ready.") := rfl
  rw [hget, agentsUsed_isEmpty]
  cases hf : firstResponseText rs with
  | some t =>
    have hany := firstResponseText_success hf
    rw [hany]
    rfl
  | none =>
    cases hany : rs.any (fun r => r.success) <;> rfl

/-- C6: in deterministic synthesis mode, for every query and every input
list of agent results, the produced answer object has at most 3
recommendations, at most 2 warnings, at most 3 next steps, and a
non-empty answer string. -/
theorem deterministic_synthesis_caps_and_nonempty_answer
    (query : String) (rs : List AgentResponse) :
    (sopList (buildSopFromAgents query rs) "recommendations").length ≤ 3
      ∧ (sopList (buildSopFromAgents query rs) "warnings").length ≤ 2
      ∧ (sopList (buildSopFromAgents query rs) "next_steps").length ≤ 3
      ∧ sopAnswer (buildSopFromAgents query rs) ≠ "" := by
  refine ⟨?_, ?_, ?_, ?_⟩
  · have h1 : sopList (buildSopFromAgents query rs) "recommendations" =
        ((if (collectSopLists rs).1.isEmpty then
            ["Provide crop name and current growth stage."]
          else (collectSopLists rs).1).take 3).map JValue.str := rfl
    rw [h1, List.length_map, List.length_take]
    omega
  · have h2 : sopList (buildSopFromAgents query rs) "warnings" =
        (((collectSopLists rs).2.1.take 2)).map JValue.str := rfl
    rw [h2, List.length_map, List.length_take]
    omega
  · have h3 : sopList (buildSopFromAgents query rs) "next_steps" =
        ((if (collectSopLists rs).2.2.isEmpty then
            ["Share location + crop + growth stage for more precise advice."]
          else (collectSopLists rs).2.2).take 3).map JValue.str := rfl
    rw [h3, List.length_map, List.length_take]
    omega
  · rw [buildSop_answer_eq]
    cases hf : firstResponseText rs with
    | some t => exact firstResponseText_ne_empty hf
    | none => cases rs.any (fun r => r.success) <;> decide

/-- A successful agent result that carries only an `answer` field (no
`response` field). -/
def answerOnlyResult : AgentResponse :=
  { agent_name := "soil_health", success := true,
    data := JValue.obj [("answer", JValue.str "Apply urea 40kg")] }

/-- C9 counterexample: a successful agent supplied a usable free-text
`answer` field, yet deterministic synthesis returns the generic
"Response ready." string instead of the agent's text — the loop only
consults the `response` field, so the claim as stated is false at this
input. -/
theorem answer_field_ignored_counterexample :
    sopAnswer (buildSopFromAgents "q" [answerOnlyResult]) = "Response ready."
      ∧ "Response ready." ≠ "Apply urea 40kg" := by
  constructor
  · rfl
  · decide

/-- C9 (amended): in deterministic synthesis mode the answer is
determined by the `response` field alone — the first successful agent's
non-blank string `response` (trimmed) if one exists; otherwise the
generic "Response ready." string when at least one agent succeeded and
the generic need-more-information string when none did.  An `answer`
field in an agent payload is never consulted. -/
theorem deterministic_answer_reads_response_field_only
    (query : String) (rs : List AgentResponse) :
    sopAnswer (buildSopFromAgents query rs) =
      match firstResponseText rs with
      | some t => t
      | none =>
        if rs.any (fun r => r.success) then "Response ready."
        else "Please provide crop and location details for a precise recommendation." :=
  buildSop_answer_eq query rs

/-- C7: model-assisted synthesis degrades to the deterministic path — a
client failure (caught exception) returns exactly the deterministic
result, and so does a model response whose parse product is unusable (not
a dict, or with an empty/missing `answer` field); nothing is ever raised
to the caller. -/
theorem model_synthesis_degrades_to_deterministic
    (loads : String → Option JValue) (query : String) (rs : List AgentResponse) :
    (∀ e : String,
       synthesizeResponse false (Except.error e) loads query rs = buildSopFromAgents query rs)
      ∧ (∀ r : String, parsedUsable (parseJsonResponse loads r) = false →
          synthesizeResponse false (Except.ok r) loads query rs = buildSopFromAgents query rs) := by
  constructor
  · intro e
    rfl
  · intro r h
    rw [synthesizeResponse]
    simp [h]

/-- A `json.loads` oracle that fails on every input. -/
def loadsNone : String → Option JValue := fun _ => none

/-- Witness for `model_synthesis_degrades_to_deterministic` at a failing
client call and an unparsable model response. -/
theorem model_synthesis_degrades_witness :
    (synthesizeResponse false (Except.error "quota exceeded") loadsNone "q" []
        = buildSopFromAgents "q" [])
      ∧ (synthesizeResponse false (Except.ok "no json here") loadsNone "q" []
          = buildSopFromAgents "q" []) :=
  ⟨(model_synthesis_degrades_to_deterministic loadsNone "q" []).1 "quota exceeded",
   (model_synthesis_degrades_to_deterministic loadsNone "q" []).2 "no json here" (by decide)⟩

/-- C8: for every query the greeting matcher recognises, `process_query`
returns the canned response verbatim (both as the `answer` payload and as
the natural-language string) with an empty `agent_responses` list, and
its result is independent of every downstream oracle — the selector,
executor and synthesizer are never consulted. -/
theorem greeting_bypasses_pipeline
    (o o' : Oracles) (query : String) (context : Option JValue)
    (sessionId : Option String) (g : String)
    (h : createSimpleGreetingResponse query = some g) :
    processQuery o query context sessionId = processQuery o' query context sessionId
      ∧ (processQuery o query context sessionId).agent_responses = []
      ∧ (processQuery o query context sessionId).natural_language = g
      ∧ (processQuery o query context sessionId).response
          = JValue.obj [("answer", JValue.str g)] := by
  simp [processQuery, h]

/-- One fully failing oracle bundle (every external collaborator errors,
low-LLM mode on). -/
def oraclesDown : Oracles :=
  { geminiSelected := []
    invoke := fun _ => Except.error "network down"
    genOutcome := Except.error "network down"
    loads := fun _ => none
    lowLlmMode := true }

/-- A contrasting healthy oracle bundle. -/
def oraclesUp : Oracles :=
  { geminiSelected := ["soil_health"]
    invoke := fun _ => Except.ok (JValue.obj [("response", JValue.str "fine")])
    genOutcome := Except.ok "text"
    loads := fun _ => some (JValue.obj [("answer", JValue.str "model answer")])
    lowLlmMode := false }

/-- Witness for `greeting_bypasses_pipeline` at the query `"Hi"`. -/
theorem greeting_bypasses_pipeline_witness :
    createSimpleGreetingResponse "Hi" = some greetingReply
      ∧ (processQuery oraclesDown "Hi" none none = processQuery oraclesUp "Hi" none none
          ∧ (processQuery oraclesDown "Hi" none none).agent_responses = []
          ∧ (processQuery oraclesDown "Hi" none none).natural_language = greetingReply
          ∧ (processQuery oraclesDown "Hi" none none).response
              = JValue.obj [("answer", JValue.str greetingReply)]) :=
  ⟨by rfl,
   greeting_bypasses_pipeline oraclesDown oraclesUp "Hi" none none greetingReply (by rfl)⟩

/-- A location dict whose `latitude` is the falsy `0` but which carries a
truthy `lat`/`lon` pair. -/
def locZeroLat : List (String × JValue) :=
  [("latitude", JValue.num 0), ("lat", JValue.num 12), ("lon", JValue.num 77)]

/-- C10 counterexample: a context location whose `latitude` value is `0`
(falsy) is NOT always treated as if no location were provided — the
alternative `lat`/`lon` spelling still validates it, and the payload
stage selects the location set `["weather_watcher"]` with no crop
present, where the claim demands no selection. -/
theorem falsy_latitude_still_location_counterexample :
    dictGet locZeroLat "latitude" = some (JValue.num 0)
      ∧ selectAgentsByPayload (some (JValue.obj [("location", JValue.obj locZeroLat)]))
          = some ["weather_watcher"] := by
  constructor
  · rfl
  · rfl

/-- C10 (amended): a context location that fails the `has_location` test —
no truthy `latitude`/`longitude` pair AND no truthy `lat`/`lon` pair
(so in particular any spelling whose member is `0`, `""` or absent) — is
treated exactly as no location: the payload stage returns the crop-only
pair (growth_stage_monitor, soil_health) when a crop indicator is truthy
and no selection otherwise, never a location-based set. -/
theorem payload_invalid_location_ignored
    (fields : List (String × JValue))
    (h : hasLocation (locationOf fields) = false) :
    selectAgentsByPayload (some (JValue.obj fields)) =
      if truthy (cropOf fields) then some ["growth_stage_monitor", "soil_health"]
      else none := by
  have hpair : safeList ["growth_stage_monitor", "soil_health"] 5
      = ["growth_stage_monitor", "soil_health"] := by decide
  rw [selectAgentsByPayload]
  by_cases he : fields.isEmpty
  · have hnil : fields = [] := by
      cases fields with
      | nil => rfl
      | cons p ps => cases he
    subst hnil
    decide
  · simp only [he, if_false, Bool.false_eq_true, h, Bool.false_and, Bool.and_self]
    simp [hpair]

/-- A context whose location is invalid under both spellings but which
carries a crop. -/
def fieldsCropOnly : List (String × JValue) :=
  [("location", JValue.obj [("latitude", JValue.num 0), ("longitude", JValue.num 77)]),
   ("crop", JValue.str "wheat")]

/-- Witness for `payload_invalid_location_ignored` at a concrete context
with a zero latitude and a crop. -/
theorem payload_invalid_location_ignored_witness :
    hasLocation (locationOf fieldsCropOnly) = false
      ∧ selectAgentsByPayload (some (JValue.obj fieldsCropOnly))
          = some ["growth_stage_monitor", "soil_health"] :=
  ⟨by decide,
   (payload_invalid_location_ignored fieldsCropOnly (by decide)).trans (by decide)⟩

end FarmXpert
